import Mathlib

/-!
Shallow embedding of the voice-call survey backend
(`backend/voice_handler.py`, `backend/voice_bot_handler.py`,
`backend/elevenlabs_handler.py`, `backend/database.py`, `backend/app.py`).

Python strings are modelled as `String`, floats that only ever hold literal
values (confidences) as `ℚ`, nullable values as `Option`, and the `questions`
table of the relational store as a list of rows.  All definitions are
executable so that concrete scenarios can be settled by `decide`/`rfl`.
-/

namespace VoiceAgent

/-! ### Python string primitives used by the handlers -/

/-- The whitespace characters stripped by Python `str.strip()` and matched by
the regex class `\s`. -/
def pyWs (c : Char) : Bool :=
  c == ' ' || c == '\t' || c == '\n' || c == '\r' || c == '\x0b' || c == '\x0c'

/-- `str.strip()` on a character list: drop whitespace from both ends. -/
def stripL (l : List Char) : List Char :=
  ((l.dropWhile pyWs).reverse.dropWhile pyWs).reverse

/-- Python `s.strip()`. -/
def pyStrip (s : String) : String := ⟨stripL s.toList⟩

/-- Python `s.lower()` (the handlers only ever lower ASCII text). -/
def lowerStr (s : String) : String := ⟨s.toList.map Char.toLower⟩

/-- Substring test on character lists: Python `needle in hay`. -/
def subL (nl : List Char) : List Char → Bool
  | [] => nl.isEmpty
  | c :: cs => nl.isPrefixOf (c :: cs) || subL nl cs

/-- Python `needle in hay` for strings. -/
def substrOf (needle hay : String) : Bool := subL needle.toList hay.toList

/-- Python `hay.endswith(suf)`. -/
def endsWithL (suf l : List Char) : Bool := suf.isSuffixOf l

/-- Recursion core of `removeOccBy`, structurally recursive on a fuel
argument so the kernel can evaluate it; the fuel (initialised to the
haystack length, which never runs out since every step shortens the
haystack) only serves termination. -/
def removeOccByAux (f : Char → Char) (nl : List Char) : Nat → List Char → List Char
  | _, [] => []
  | 0, hay => hay
  | fuel + 1, c :: cs =>
    if (!nl.isEmpty) && nl.isPrefixOf ((c :: cs).map f) then
      removeOccByAux f nl fuel ((c :: cs).drop nl.length)
    else
      c :: removeOccByAux f nl fuel cs

/-- Remove every non-overlapping occurrence of `nl` from `hay`, comparing
after applying `f` to the haystack (`f = Char.toLower` gives the
`re.IGNORECASE` substitution used in `_clean_question`, `f = id` gives
`str.replace(nl, '')`).  `nl` is expected to be already `f`-normalised. -/
def removeOccBy (f : Char → Char) (nl hay : List Char) : List Char :=
  removeOccByAux f nl hay.length hay

/-- Recursion core of `collapseL` with the same fuel pattern. -/
def collapseAux : Nat → List Char → List Char
  | _, [] => []
  | 0, l => l
  | fuel + 1, c :: cs =>
    if pyWs c then ' ' :: collapseAux fuel (cs.dropWhile pyWs)
    else c :: collapseAux fuel cs

/-- Collapse every maximal whitespace run into a single space:
`re.sub(r'\s+', ' ', s)`. -/
def collapseL (l : List Char) : List Char :=
  collapseAux l.length l

/-- Python `s.startswith(pre)`. -/
def strStarts (s pre : String) : Bool := pre.toList.isPrefixOf s.toList

/-- Python `s[-1] in chars` guarded by nonemptiness. -/
def lastCharIn (l : List Char) (cs : List Char) : Bool :=
  match l.getLast? with
  | some c => cs.contains c
  | none => false

/-! ### Answer classifier
`VoiceHandler.process_answer` (voice_handler.py lines 246-279) and
`ElevenLabsHandler._extract_answer` (elevenlabs_handler.py lines 924-939). -/

def yes_keywords : List String :=
  ["yes", "yeah", "yep", "correct", "right", "sure", "okay", "ok", "yup", "affirmative"]

def no_keywords : List String :=
  ["no", "nope", "nah", "incorrect", "wrong", "negative"]

/-- `ElevenLabsHandler._extract_answer`: `None` for falsy input, otherwise
keyword search over `text.lower().strip()`, YES keywords first. -/
def extract_answer (text : String) : Option String :=
  if text = "" then none
  else
    let t := pyStrip (lowerStr text)
    if yes_keywords.any (fun w => substrOf w t) then some "yes"
    else if no_keywords.any (fun w => substrOf w t) then some "no"
    else some "unclear"

/-- Speech branch of `VoiceHandler.process_answer`: keyword search over
`speech_result.lower().strip()`; the stored confidence is
`float(confidence) if confidence else 0.9` for yes/no and `0.3` for unclear. -/
def vh_classify_speech (s : String) (conf : Option ℚ) : String × ℚ :=
  let sl := pyStrip (lowerStr s)
  if yes_keywords.any (fun w => substrOf w sl) then ("yes", conf.getD (mkRat 9 10))
  else if no_keywords.any (fun w => substrOf w sl) then ("no", conf.getD (mkRat 9 10))
  else ("unclear", mkRat 3 10)

/-- Python truthiness of `x and x.strip()` for an optional form field. -/
def optNonWs : Option String → Bool
  | none => false
  | some s => (s ≠ "") && (pyStrip s ≠ "")

/-- The answer/confidence determination of `VoiceHandler.process_answer`:
speech branch, then DTMF digits branch (`1`→yes, `2`→no, else unclear),
and `('timeout', 0.0)` when neither input is present. -/
def vh_determine (speech digits : Option String) (conf : Option ℚ) : String × ℚ :=
  if optNonWs speech then
    vh_classify_speech (speech.getD "") conf
  else if optNonWs digits then
    match digits.getD "" with
    | "1" => ("yes", 1)
    | "2" => ("no", 1)
    | _ => ("unclear", mkRat 3 10)
  else ("timeout", 0)

/-- Python `speech_result or digits or 'timeout'` (string truthiness). -/
def orElseStr (a : Option String) (b : String) : String :=
  match a with
  | some s => if s = "" then b else s
  | none => b

def vh_raw (speech digits : Option String) : String :=
  orElseStr speech (orElseStr digits "timeout")

/-! ### Durable store: the `questions` table
`Database.save_question` / `Database.save_answer` (database.py lines 227-243).
A row carries the question's key columns and the answer columns that
`save_answer` fills in. -/

structure QuestionRow where
  call_id : Nat
  question_number : Nat
  question_text : String
  response : Option String
  response_confidence : Option ℚ
  raw_response : Option String
deriving DecidableEq

abbrev QuestionsTable := List QuestionRow

/-- Row matches the `WHERE call_id = ? AND question_number = ?` clause. -/
def matchKey (cid q : Nat) (r : QuestionRow) : Bool :=
  (r.call_id = cid) && (r.question_number = q)

/-- `Database.save_question`: `INSERT INTO questions ...` appends a fresh row
with empty answer columns. -/
def save_question (db : QuestionsTable) (cid : Nat) (text : String) (num : Nat) :
    QuestionsTable :=
  db ++ [⟨cid, num, text, none, none, none⟩]

/-- `Database.save_answer`: `UPDATE questions SET response = ?, ... WHERE
call_id = ? AND question_number = ?` — every matching row (and only those)
gets the new answer columns; no row is ever inserted. -/
def save_answer (db : QuestionsTable) (cid q : Nat) (answer : String) (conf : ℚ)
    (raw : String) : QuestionsTable :=
  db.map fun r =>
    if matchKey cid q r then
      { r with response := some answer, response_confidence := some conf,
               raw_response := some raw }
    else r

/-! ### IVR channel: `VoiceHandler` (voice_handler.py) -/

/-- The question-saving loop of `VoiceHandler.initiate_call` (lines 60-65):
`for idx, question in enumerate(questions): db.save_question(call_id, text, idx)`. -/
def ivr_save_questions (db : QuestionsTable) (cid : Nat) (qs : List String) :
    QuestionsTable :=
  qs.enum.foldl (fun d iq => save_question d cid iq.2 iq.1) db

/-- Per-call state visible to `VoiceHandler.process_answer`: the `questions`
table and the call row's `status` column (which `process_answer` never
touches). -/
structure CallState where
  rows : QuestionsTable
  callStatus : String

structure ProcessAnswerResult where
  answer : String
  confidence : ℚ
  state : CallState
  /-- `q_num` of the `/api/voice-flow` redirect emitted at the end:
  the slot the flow will ask next. -/
  nextQ : Nat

/-- `VoiceHandler.process_answer` (lines 231-317): determine the answer from
speech/digits, store it via `save_answer`, and redirect the flow to
`q_num = question_num + 1`. -/
def vh_process_answer (st : CallState) (cid q : Nat) (speech digits : Option String)
    (conf : Option ℚ) : ProcessAnswerResult :=
  let ac := vh_determine speech digits conf
  { answer := ac.1
    confidence := ac.2
    state := { rows := save_answer st.rows cid q ac.1 ac.2 (vh_raw speech digits)
               callStatus := st.callStatus }
    nextQ := q + 1 }

/-! ### Voice-bot channel: `VoiceBotHandler` (voice_bot_handler.py) -/

def VOICE_BOT_QUESTIONS : List String :=
  ["Has an Enduring Power of Attorney been enacted for this client?",
   "Has a Do Not Resuscitate (DNR) order been discussed with the client?",
   "Has the client’s family/whānau been informed about the client’s CPR wishes?",
   "Does the client identify with any iwi or hapū?",
   "Has the client been offered cultural support, and did they accept or decline it?"]

structure VBSession where
  call_id : Nat
  current_question : Nat

/-- The question-saving part of `VoiceBotHandler.start_session` (lines 99-104):
the first question (list index 0) is stored with `question_number = 1`. -/
def vb_start_session (db : QuestionsTable) (cid : Nat) : QuestionsTable × VBSession :=
  (save_question db cid (VOICE_BOT_QUESTIONS.getD 0 "") 1, ⟨cid, 0⟩)

/-- The next-question bookkeeping of `VoiceBotHandler.process_answer`
(lines 183-197): when slots remain, the question at list index
`current_question + 1` is stored with `question_number = current_question + 2`. -/
def vb_advance (db : QuestionsTable) (s : VBSession) : QuestionsTable × VBSession :=
  let nq := s.current_question + 1
  if nq < VOICE_BOT_QUESTIONS.length then
    (save_question db s.call_id (VOICE_BOT_QUESTIONS.getD nq "") (nq + 1), ⟨s.call_id, nq⟩)
  else (db, s)

/-! ### Transcript segmenter
`ElevenLabsHandler.handle_webhook`, post_call_transcription branch
(elevenlabs_handler.py lines 689-734) and `_clean_question` (lines 941-976). -/

def confirmation_phrases : List String :=
  ["is that correct", "you said", "did i hear", "confirm"]

def greeting_phrases : List String :=
  ["how can i help", "calling for", "may i proceed", "can i help"]

def phrases_to_remove : List String :=
  ["please answer yes or no only", "please answer yes or no",
   "answer yes or no only", "answer yes or no",
   "yes or no only", "yes or no"]

/-- One iteration of the phrase-removal loop in `_clean_question`. -/
def clean_step (cq : String) (phrase : String) : String :=
  let phl := (lowerStr phrase).toList
  if endsWithL phl (lowerStr cq).toList then
    let c1 := pyStrip ⟨cq.toList.take (cq.toList.length - phrase.toList.length)⟩
    if c1.toList ≠ [] && lastCharIn c1.toList ['.', ',', '?'] then
      if ¬ lastCharIn c1.toList ['?'] then
        pyStrip ⟨c1.toList.take (c1.toList.length - 1)⟩
      else c1
    else c1
  else if subL phl (lowerStr cq).toList then
    let c2 := pyStrip ⟨removeOccBy Char.toLower phl cq.toList⟩
    let c3 := pyStrip ⟨collapseL c2.toList⟩
    if c3.toList ≠ [] && lastCharIn c3.toList ['.', ','] then
      pyStrip ⟨c3.toList.take (c3.toList.length - 1)⟩
    else c3
  else cq

/-- `ElevenLabsHandler._clean_question`: strip, then remove each instructional
phrase in order (at the end of the text, else anywhere case-insensitively),
tidying trailing punctuation as the source does. -/
def clean_question (q : String) : String :=
  if q = "" then q
  else phrases_to_remove.foldl clean_step (pyStrip q)

/-- One transcript turn, after the role/message field synonyms are resolved. -/
structure Turn where
  role : String
  text : String

structure QA where
  question_number : Nat
  question : String
  answer : String
  raw_answer : String
deriving DecidableEq

structure SegState where
  qnum : Nat
  current : Option String
  out : List QA

/-- One iteration of the message loop in the post_call_transcription branch:
an agent turn that looks like a survey question (contains `?` or "yes or no",
and matches no confirmation or greeting phrase) becomes the pending question
and bumps the counter; a user turn with a pending question is classified and
emitted, clearing the pending question. -/
def seg_step (st : SegState) (t : Turn) : SegState :=
  let mt := pyStrip t.text
  if t.role = "agent" && mt ≠ "" then
    let ml := pyStrip (lowerStr mt)
    let isConf := confirmation_phrases.any fun p => substrOf p ml
    let isGreet := greeting_phrases.any fun p => substrOf p ml
    if (substrOf "?" mt || substrOf "yes or no" ml) && ¬ isConf && ¬ isGreet then
      { st with current := some (clean_question mt), qnum := st.qnum + 1 }
    else st
  else if t.role = "user" && mt ≠ "" then
    match st.current with
    | some cq =>
      match extract_answer mt with
      | some a => { qnum := st.qnum, current := none,
                    out := st.out ++ [⟨st.qnum, cq, a, mt⟩] }
      | none => st
    | none => st
  else st

/-- The Q&A pairs extracted from a post-call transcript. -/
def segmentTranscript (msgs : List Turn) : List QA :=
  (msgs.foldl seg_step ⟨0, none, []⟩).out

/-! ### Identifier correlation cache
`ElevenLabsHandler.questions_cache` and the resolution block of
`handle_webhook` (elevenlabs_handler.py lines 401-441).  The cache is a
Python dict keyed by strings; it is modelled as an insertion-ordered
association list (`items()` iterates in insertion order, and updating an
existing key keeps its position).  The identifier entries relevant to
resolution all hold string values; non-string values (cached question lists
and contexts) can never satisfy the reverse-scan predicate `value ==
conversation_id` and are represented by values that differ from every
conversation reference. -/

abbrev Cache := List (String × String)

def cacheLookup (c : Cache) (k : String) : Option String :=
  (c.find? fun kv => kv.1 = k).map (·.2)

/-- Dict assignment `cache[k] = v`: update in place when the key exists,
otherwise append. -/
def cacheInsert (c : Cache) (k v : String) : Cache :=
  if (c.find? fun kv => kv.1 = k).isSome then
    c.map fun kv => if kv.1 = k then (k, v) else kv
  else c ++ [(k, v)]

/-- The direct-namespace key `f'conv_{conversation_id}_call_id'`. -/
def convKey (conv : String) : String := "conv_" ++ conv ++ "_call_id"

/-- The reverse-scan predicate of the cache loop:
`key.endswith('_conversation_id') and value == conversation_id`. -/
def fwdScanPred (conv : String) (kv : String × String) : Bool :=
  endsWithL "_conversation_id".toList kv.1.toList && (kv.2 = conv)

/-- `key.replace('_conversation_id', '')`. -/
def stripConvSuffix (k : String) : String :=
  ⟨removeOccBy id "_conversation_id".toList k.toList⟩

/-- `Database.get_call_id_by_sid`: `SELECT id FROM calls WHERE call_sid = ?`,
returning `None` when no row matches (or on a database error, which the
method swallows). -/
def get_call_id_by_sid (calls : List (String × Nat)) (sid : String) : Option Nat :=
  (calls.find? fun kv => kv.1 = sid).map (·.2)

structure ResolveOut where
  call_id : Option String
  cache : Cache

/-- Step 1 (lines 401-417): direct `conv_..._call_id` lookup, then the
reverse scan over forward `..._conversation_id` entries with backfill. -/
def resolveDirectOrScan (cache : Cache) (conversation_id call_id0 : Option String) :
    ResolveOut :=
  match conversation_id, call_id0 with
  | some conv, none =>
    match cacheLookup cache (convKey conv) with
    | some v => ⟨some v, cache⟩
    | none =>
      match cache.find? (fwdScanPred conv) with
      | some kv =>
        ⟨some (stripConvSuffix kv.1),
         cacheInsert cache (convKey conv) (stripConvSuffix kv.1)⟩
      | none => ⟨none, cache⟩
  | _, _ => ⟨call_id0, cache⟩

/-- Step 2 (lines 419-429): durable lookup by the telephony `call_sid`. -/
def resolveBySid (s1 : ResolveOut) (calls : List (String × Nat)) (dbAvail : Bool)
    (call_sid : Option String) : ResolveOut :=
  match s1.call_id, call_sid with
  | none, some sid =>
    if dbAvail then
      match get_call_id_by_sid calls sid with
      | some i =>
        ⟨some (toString i),
         cacheInsert s1.cache ("sid_" ++ sid ++ "_call_id") (toString i)⟩
      | none => ⟨none, s1.cache⟩
    else ⟨none, s1.cache⟩
  | _, _ => s1

/-- Step 3 (lines 431-441): durable lookup using the conversation reference
as the call sid, with backfill of the direct key. -/
def resolveByConvSid (s2 : ResolveOut) (calls : List (String × Nat)) (dbAvail : Bool)
    (conversation_id : Option String) : ResolveOut :=
  match s2.call_id, conversation_id with
  | none, some conv =>
    if dbAvail then
      match get_call_id_by_sid calls conv with
      | some i => ⟨some (toString i), cacheInsert s2.cache (convKey conv) (toString i)⟩
      | none => ⟨none, s2.cache⟩
    else ⟨none, s2.cache⟩
  | _, _ => s2

/-- The call-id resolution sequence of `handle_webhook` (lines 401-441) for
a webhook that produced `conversation_id` / `call_id0` / `call_sid`: the
three steps run in order, each only when the previous left the id
unresolved. -/
def resolveCallId (cache : Cache) (calls : List (String × Nat)) (dbAvail : Bool)
    (conversation_id call_id0 call_sid : Option String) : ResolveOut :=
  resolveByConvSid
    (resolveBySid (resolveDirectOrScan cache conversation_id call_id0) calls dbAvail call_sid)
    calls dbAvail conversation_id

/-- The mapping bookkeeping of `initiate_elevenlabs_call` on a successful
outbound-call response (elevenlabs_handler.py lines 220-227): forward keys
for the conversation reference and call sid, and the direct reverse key. -/
def record_start_mappings (cache : Cache) (call_id conv sid : String) : Cache :=
  let c1 := cacheInsert cache (call_id ++ "_conversation_id") conv
  let c2 := cacheInsert c1 (call_id ++ "_call_sid") sid
  cacheInsert c2 (convKey conv) call_id

/-! ### Webhook HTTP boundary (app.py)
Each Flask route is modelled as a function from the request fields and the
outcome of the processing step it delegates to, to an HTTP status code and a
body marker.  `Outcome` stands for "the delegated step returned normally /
raised an exception"; the `try/except` structure of each route decides what
that turns into. -/

inductive Outcome (α : Type) where
  | ok (a : α)
  | err (msg : String)
deriving DecidableEq

/-- `/api/voice-flow` (app.py lines 681-708): a `q_num` parse failure or an
exception from `handle_voice_flow` is caught and answered with an error
TwiML document, still with status 200. -/
def voice_flow_route (call_id : Option String) (qnumParse : Outcome Nat)
    (flow : Outcome String) : Nat × String :=
  match qnumParse with
  | .err _ => (200, "twiml-error")
  | .ok _ =>
    match call_id with
    | none => (200, "twiml-error")
    | some cid =>
      if cid = "" then (200, "twiml-error")
      else
        match flow with
        | .ok t => (200, t)
        | .err _ => (200, "twiml-error")

/-- `/api/process-answer` (app.py lines 711-744): same shape as
`/api/voice-flow`. -/
def process_answer_route (call_id : Option String) (qnumParse : Outcome Nat)
    (handler : Outcome String) : Nat × String :=
  match qnumParse with
  | .err _ => (200, "twiml-error")
  | .ok _ =>
    match call_id with
    | none => (200, "twiml-error")
    | some cid =>
      if cid = "" then (200, "twiml-error")
      else
        match handler with
        | .ok t => (200, t)
        | .err _ => (200, "twiml-error")

/-- `/api/call-status` (app.py lines 747-767): the status write is wrapped in
its own `try/except`, so a durable-store failure is logged and the route
still answers `{'status': 'ok'}` with 200.  (The route's outer handler can
only fire on a failure of form access or response serialisation, neither of
which is part of processing the event; they are total here.) -/
def call_status_route (call_sid : Option String) (dbWrite : Outcome Unit) :
    Nat × String :=
  match call_sid with
  | some _ =>
    match dbWrite with
    | .ok _ => (200, "status-ok")
    | .err _ => (200, "status-ok")
  | none => (200, "status-ok")

/-- `ElevenLabsHandler.handle_webhook`'s top-level `try/except`
(elevenlabs_handler.py lines 274, 882, 884-922): the whole body is wrapped,
a normal run returns `{'status': 'ok', ...}` and any exception is converted
into a returned `{'status': 'error', ...}` — the method never raises. -/
def el_handle_webhook (processing : Outcome Unit) : String :=
  match processing with
  | .ok _ => "ok"
  | .err _ => "error"

/-- `/api/elevenlabs-webhook` (app.py lines 439-468): when the request body
parses, the handler's result dict is serialised with the default status 200;
the 500 branch is reachable only if body extraction itself raises. -/
def elevenlabs_webhook_route (bodyParse : Outcome Unit) (processing : Outcome Unit) :
    Nat × String :=
  match bodyParse with
  | .err _ => (500, "error")
  | .ok _ => (200, el_handle_webhook processing)

/-! ### Call initiation `/api/initiate-call` (app.py lines 86-173) -/

/-- Server-side state that `/api/initiate-call` can touch: the `calls` table
and the `questions` table. -/
structure AppDb where
  calls : List (Nat × String)
  questions : QuestionsTable
deriving DecidableEq

inductive InitResp where
  /-- one of the three synchronous validation rejections, HTTP 400 -/
  | badRequest (msg : String)
  /-- Twilio dispatch failed, HTTP 500 -/
  | dispatchFailed
  /-- demo-mode simulation answer -/
  | demo
  /-- call dispatched, HTTP 200 -/
  | success (call_id : Nat)
deriving DecidableEq

/-- `/api/initiate-call`: validation (missing/empty phone, empty question
list, phone without `+`) happens before demo-mode dispatch, the
`create_call` insert, the `initiate_call` question saving and the Twilio
dispatch.  `dbCreateId` is the id returned by `create_call` (`none` = the
insert raised and a random fallback id `randId` is used), `dispatchOk` the
outcome of the Twilio call creation. -/
def initiate_call_route (st : AppDb) (phone : Option String) (questions : List String)
    (demoMode : Bool) (dbCreateId : Option Nat) (randId : Nat) (dispatchOk : Bool) :
    InitResp × AppDb :=
  match phone with
  | none => (.badRequest "Phone number is required", st)
  | some p =>
    if p = "" then (.badRequest "Phone number is required", st)
    else if questions = [] then (.badRequest "At least one question is required", st)
    else if ¬ strStarts p "+" then
      (.badRequest "Phone number must include country code", st)
    else if demoMode then (.demo, st)
    else
      let cidSt : Nat × AppDb :=
        match dbCreateId with
        | some i => (i, { st with calls := st.calls ++ [(i, p)] })
        | none => (randId, st)
      let st2 : AppDb :=
        { cidSt.2 with questions := ivr_save_questions cidSt.2.questions cidSt.1 questions }
      if dispatchOk then (.success cidSt.1, st2) else (.dispatchFailed, st2)

/-! ### Helper lemmas about `save_answer` -/

theorem matchKey_update (cid q : Nat) (a : String) (c : ℚ) (raw : String)
    (r : QuestionRow) :
    matchKey cid q { r with response := some a, response_confidence := some c,
                            raw_response := some raw } = matchKey cid q r := rfl

theorem save_answer_count (db : QuestionsTable) (cid q : Nat) (a : String) (c : ℚ)
    (raw : String) :
    ((save_answer db cid q a c raw).filter (matchKey cid q)).length
      = (db.filter (matchKey cid q)).length := by
  induction db with
  | nil => rfl
  | cons r t ih =>
    simp only [save_answer, List.map_cons] at *
    by_cases h : matchKey cid q r
    · rw [if_pos h]
      have h2 : matchKey cid q { r with response := some a, response_confidence := some c,
                                        raw_response := some raw } = true := by
        rw [matchKey_update]; exact h
      simp only [List.filter_cons, h2, h, if_pos, List.length_cons]
      omega
    · rw [if_neg h]
      simp only [List.filter_cons, Bool.not_eq_true] at *
      simp [h, ih]

theorem save_answer_matching (db : QuestionsTable) (cid q : Nat) (a : String) (c : ℚ)
    (raw : String) :
    ∀ r ∈ save_answer db cid q a c raw, matchKey cid q r = true →
      r.response = some a ∧ r.response_confidence = some c ∧ r.raw_response = some raw := by
  induction db with
  | nil => intro r hr; simp [save_answer] at hr
  | cons x t ih =>
    intro r hr hm
    simp only [save_answer, List.map_cons, List.mem_cons] at hr
    rcases hr with hr | hr
    · by_cases h : matchKey cid q x
      · rw [if_pos h] at hr; subst hr; simp
      · rw [if_neg h] at hr; subst hr; exact absurd hm (by simp [h])
    · exact ih r hr hm

theorem save_answer_length (db : QuestionsTable) (cid q : Nat) (a : String) (c : ℚ)
    (raw : String) :
    (save_answer db cid q a c raw).length = db.length := by
  simp [save_answer]

theorem save_answer_no_match (db : QuestionsTable) (cid q : Nat) (a : String) (c : ℚ)
    (raw : String) (h : ∀ r ∈ db, matchKey cid q r = false) :
    save_answer db cid q a c raw = db := by
  induction db with
  | nil => rfl
  | cons x t ih =>
    simp only [save_answer, List.map_cons]
    have hx := h x (by simp)
    rw [hx]
    simp only [Bool.false_eq_true, if_false, List.cons.injEq, true_and]
    exact ih fun r hr => h r (by simp [hr])

theorem pyStrip_empty : pyStrip "" = "" := rfl

theorem vh_determine_speech (t : String) (conf : Option ℚ) (h : pyStrip t ≠ "") :
    vh_determine (some t) none conf = vh_classify_speech t conf := by
  have ht : t ≠ "" := by
    intro he; subst he; exact h pyStrip_empty
  simp [vh_determine, optNonWs, ht, h]

theorem vh_raw_speech (t : String) (d : Option String) (h : t ≠ "") :
    vh_raw (some t) d = t := by
  simp [vh_raw, orElseStr, h]

end VoiceAgent

namespace VoiceAgent

/-- C1: calling the answer-saving path of the IVR channel
(`VoiceHandler.process_answer` → `Database.save_answer`) twice with the same
`(call_id, sequence_number)` and different raw texts leaves exactly one
stored answer row for that slot; its answer, confidence and raw response are
those of the second invocation's classification, and the flow pointer handed
to the `/api/voice-flow` redirect is `q + 1` after each invocation, so the
pointer advances by one slot in total, not two. -/
theorem answer_upsert_idempotent (rows : QuestionsTable) (status : String)
    (cid q : Nat) (t1 t2 : String) (conf1 conf2 : Option ℚ)
    (h1 : pyStrip t1 ≠ "") (h2 : pyStrip t2 ≠ "") (hne : t1 ≠ t2)
    (hcount : (rows.filter (matchKey cid q)).length = 1) :
    ((vh_process_answer
        (vh_process_answer ⟨rows, status⟩ cid q (some t1) none conf1).state
        cid q (some t2) none conf2).state.rows.filter (matchKey cid q)).length = 1 ∧
    (∀ r ∈ (vh_process_answer
        (vh_process_answer ⟨rows, status⟩ cid q (some t1) none conf1).state
        cid q (some t2) none conf2).state.rows,
      matchKey cid q r = true →
        r.response = some (vh_classify_speech t2 conf2).1 ∧
        r.response_confidence = some (vh_classify_speech t2 conf2).2 ∧
        r.raw_response = some t2) ∧
    (vh_process_answer ⟨rows, status⟩ cid q (some t1) none conf1).nextQ = q + 1 ∧
    (vh_process_answer
        (vh_process_answer ⟨rows, status⟩ cid q (some t1) none conf1).state
        cid q (some t2) none conf2).nextQ = q + 1 := by
  have ht2 : t2 ≠ "" := by intro he; subst he; exact h2 pyStrip_empty
  refine ⟨?_, ?_, rfl, rfl⟩
  · simp only [vh_process_answer, save_answer_count]
    exact hcount
  · intro r hr hm
    simp only [vh_process_answer, vh_determine_speech t2 conf2 h2,
      vh_raw_speech t2 none ht2] at hr
    exact save_answer_matching _ cid q _ _ _ r hr hm

/-- Witness for `answer_upsert_idempotent` at a concrete one-row table. -/
theorem answer_upsert_idempotent_witness :
    ((vh_process_answer
        (vh_process_answer ⟨[⟨1, 0, "Q1", none, none, none⟩], "in-progress"⟩
          1 0 (some "yes") none none).state
        1 0 (some "no") none none).state.rows.filter (matchKey 1 0)).length = 1 := by
  have h := answer_upsert_idempotent [⟨1, 0, "Q1", none, none, none⟩] "in-progress"
    1 0 "yes" "no" none none (by decide) (by decide) (by decide) (by decide)
  exact h.1

/-- C10: `Database.save_answer` for a `(call_id, question_num)` with no
previously created question row is an `UPDATE` matching zero rows — it
returns normally, creates nothing, and leaves the table unchanged; and in
general it never changes the number of rows, so an answer can only ever be
stored in a row previously inserted by `save_question`. -/
theorem save_answer_without_question (db : QuestionsTable) (cid q : Nat)
    (a : String) (c : ℚ) (raw : String)
    (h : ∀ r ∈ db, matchKey cid q r = false) :
    save_answer db cid q a c raw = db ∧
    ∀ (db2 : QuestionsTable) (cid2 q2 : Nat) (a2 : String) (c2 : ℚ) (raw2 : String),
      (save_answer db2 cid2 q2 a2 c2 raw2).length = db2.length := by
  exact ⟨save_answer_no_match db cid q a c raw h,
    fun db2 cid2 q2 a2 c2 raw2 => save_answer_length db2 cid2 q2 a2 c2 raw2⟩

/-- Witness for `save_answer_without_question`: a table holding only slot
`(1, 0)` is untouched by an answer for slot `(1, 3)`. -/
theorem save_answer_without_question_witness :
    save_answer [⟨1, 0, "Q1", none, none, none⟩] 1 3 "yes" 1 "yes"
      = [⟨1, 0, "Q1", none, none, none⟩] := by
  exact (save_answer_without_question [⟨1, 0, "Q1", none, none, none⟩] 1 3 "yes" 1 "yes"
    (by decide)).1

/-- C4: when `VoiceHandler.process_answer` runs with neither speech nor
digits (the no-input case of the provider's wait window), the slot is stored
as `('timeout', 0.0)` with raw response `'timeout'`, the flow redirect moves
to slot `q + 1`, and the call's status column is untouched — in particular
it does not become `failed` because of the timeout. -/
theorem timeout_resolves_slot (rows : QuestionsTable) (status : String) (cid q : Nat)
    (conf : Option ℚ)
    (hrow : (rows.filter (matchKey cid q)).length = 1)
    (hst : status ≠ "failed") :
    (vh_process_answer ⟨rows, status⟩ cid q none none conf).answer = "timeout" ∧
    (vh_process_answer ⟨rows, status⟩ cid q none none conf).confidence = 0 ∧
    ((vh_process_answer ⟨rows, status⟩ cid q none none conf).state.rows.filter
      (matchKey cid q)).length = 1 ∧
    (∀ r ∈ (vh_process_answer ⟨rows, status⟩ cid q none none conf).state.rows,
      matchKey cid q r = true →
        r.response = some "timeout" ∧ r.response_confidence = some 0 ∧
        r.raw_response = some "timeout") ∧
    (vh_process_answer ⟨rows, status⟩ cid q none none conf).nextQ = q + 1 ∧
    (vh_process_answer ⟨rows, status⟩ cid q none none conf).state.callStatus = status ∧
    (vh_process_answer ⟨rows, status⟩ cid q none none conf).state.callStatus ≠ "failed" := by
  refine ⟨rfl, rfl, ?_, ?_, rfl, rfl, hst⟩
  · simp only [vh_process_answer, save_answer_count]
    exact hrow
  · intro r hr hm
    simp only [vh_process_answer] at hr
    exact save_answer_matching _ cid q _ _ _ r hr hm

/-- Witness for `timeout_resolves_slot` at a concrete one-row table. -/
theorem timeout_resolves_slot_witness :
    (vh_process_answer ⟨[⟨1, 0, "Q1", none, none, none⟩], "in-progress"⟩
      1 0 none none none).answer = "timeout" := by
  exact (timeout_resolves_slot [⟨1, 0, "Q1", none, none, none⟩] "in-progress" 1 0 none
    (by decide) (by decide)).1

/-! ### Whitespace lemmas for the classifier corner cases -/

theorem pyWs_toLower (c : Char) (h : pyWs c = true) : Char.toLower c = c := by
  simp only [pyWs, Bool.or_eq_true, beq_iff_eq] at h
  rcases h with ((((h | h) | h) | h) | h) | h <;> subst h <;> decide

theorem dropWhile_nil_of_all (l : List Char) (h : ∀ c ∈ l, pyWs c = true) :
    l.dropWhile pyWs = [] := by
  induction l with
  | nil => rfl
  | cons c t ih =>
    rw [List.dropWhile_cons, if_pos (h c (by simp))]
    exact ih fun x hx => h x (by simp [hx])

theorem stripL_nil_of_all (l : List Char) (h : ∀ c ∈ l, pyWs c = true) :
    stripL l = [] := by
  unfold stripL
  rw [dropWhile_nil_of_all l h]
  simp

theorem pyStrip_of_ws (s : String) (h : ∀ c ∈ s.toList, pyWs c = true) :
    pyStrip s = "" := by
  unfold pyStrip
  rw [stripL_nil_of_all s.toList h]

theorem lower_all_ws (s : String) (h : ∀ c ∈ s.toList, pyWs c = true) :
    ∀ c ∈ (lowerStr s).toList, pyWs c = true := by
  intro c hc
  simp only [lowerStr] at hc
  change c ∈ s.toList.map Char.toLower at hc
  rcases List.mem_map.mp hc with ⟨d, hd, hdc⟩
  rw [← hdc, pyWs_toLower d (h d hd)]
  exact h d hd

/-- C6 counterexample: for the empty input (and a whitespace-only input) the
IVR answer path yields `('timeout', 0.0)`, not `('unclear', 0.0)`, and the
transcript extractor returns no answer at all for the empty string. -/
theorem empty_input_cex :
    vh_determine (some "") none none = ("timeout", 0) ∧
    vh_determine (some " ") none none = ("timeout", 0) ∧
    extract_answer "" = none ∧
    (("timeout", (0 : ℚ)) ≠ ("unclear", (0 : ℚ))) ∧
    ((none : Option String) ≠ some "unclear") := by
  refine ⟨by decide, by decide, by decide, by decide, by decide⟩

/-- C6 amended: empty or whitespace-only input produces no classified answer:
the IVR answer path resolves it as `('timeout', 0.0)`, while the transcript
extractor returns `None` for the empty string and `'unclear'` (with no
confidence of its own) for a nonempty whitespace-only string. -/
theorem empty_input_no_answer (s : String) (conf : Option ℚ)
    (h : ∀ c ∈ s.toList, pyWs c = true) :
    vh_determine (some s) none conf = ("timeout", 0) ∧
    vh_determine none none conf = ("timeout", 0) ∧
    extract_answer "" = none ∧
    (s ≠ "" → extract_answer s = some "unclear") := by
  have hs : pyStrip s = "" := pyStrip_of_ws s h
  have hls : pyStrip (lowerStr s) = "" := pyStrip_of_ws _ (lower_all_ws s h)
  refine ⟨?_, by rfl, by decide, ?_⟩
  · simp [vh_determine, optNonWs, hs]
  · intro hne
    simp only [extract_answer, if_neg hne, hls]
    decide

/-- Witness for `empty_input_no_answer` at the whitespace-only input `"  "`. -/
theorem empty_input_no_answer_witness :
    vh_determine (some "  ") none none = ("timeout", 0) ∧
    extract_answer "  " = some "unclear" := by
  have h := empty_input_no_answer "  " none (by decide)
  exact ⟨h.1, h.2.2.2 (by decide)⟩

/-- C7 counterexample: `"nope"` contains a NO keyword and no YES keyword, yet
when the provider supplies a confidence of `0.4` the IVR path stores
`('no', 0.4)` — below the claimed lower bound of `0.8`. -/
theorem yes_precedence_cex :
    vh_determine (some "nope") none (some (mkRat 2 5)) = ("no", mkRat 2 5) ∧
    ¬ (mkRat 4 5 ≤ mkRat 2 5) := by
  refine ⟨by decide, by decide⟩

/-- C7 amended: YES keywords are checked before NO keywords, so any input
containing a YES keyword substring classifies as `yes` (even alongside a NO
keyword, e.g. `"no, yes"`); an input with a NO keyword and no YES keyword
classifies as `no`, with confidence `0.9 ≥ 0.8` when the provider supplies no
confidence (a supplied provider confidence is stored verbatim and may be
lower). -/
theorem yes_precedence (s : String) (conf : Option ℚ) :
    (yes_keywords.any (fun w => substrOf w (pyStrip (lowerStr s))) = true →
      (vh_classify_speech s conf).1 = "yes" ∧
      (s ≠ "" → extract_answer s = some "yes")) ∧
    (yes_keywords.any (fun w => substrOf w (pyStrip (lowerStr s))) = false →
     no_keywords.any (fun w => substrOf w (pyStrip (lowerStr s))) = true →
      (vh_classify_speech s conf).1 = "no" ∧
      (conf = none →
        (vh_classify_speech s conf).2 = mkRat 9 10 ∧
        mkRat 4 5 ≤ (vh_classify_speech s conf).2) ∧
      (s ≠ "" → extract_answer s = some "no")) ∧
    vh_classify_speech "no, yes" none = ("yes", mkRat 9 10) := by
  refine ⟨?_, ?_, by decide⟩
  · intro hy
    refine ⟨by simp [vh_classify_speech, hy], ?_⟩
    intro hne
    simp [extract_answer, hne, hy]
  · intro hy hn
    refine ⟨by simp [vh_classify_speech, hy, hn], ?_, ?_⟩
    · intro hc
      subst hc
      constructor <;> simp [vh_classify_speech, hy, hn] <;> decide
    · intro hne
      simp [extract_answer, hne, hy, hn]

/-- Witness for `yes_precedence`: the NO-only clause at `"nope"` with no
provider confidence, and the YES clause at `"no, yes I think"`. -/
theorem yes_precedence_witness :
    (vh_classify_speech "nope" none).1 = "no" ∧
    (vh_classify_speech "nope" none).2 = mkRat 9 10 ∧
    (vh_classify_speech "no, yes I think" none).1 = "yes" := by
  refine ⟨((yes_precedence "nope" none).2.1 (by decide) (by decide)).1,
    (((yes_precedence "nope" none).2.1 (by decide) (by decide)).2.1 rfl).1,
    ((yes_precedence "no, yes I think" none).1 (by decide)).1⟩

/-- C2: the spec's transcript-segmentation test case — the greeting and the
confirmation agent turns do not become questions, each user turn is
attributed to the pending question exactly once, and exactly the two
expected Q&A pairs come out. -/
theorem transcript_segmentation_example :
    segmentTranscript
      [⟨"agent", "Hello, how can I help?"⟩,
       ⟨"agent", "Do you have insurance? Yes or no."⟩,
       ⟨"user", "yes"⟩,
       ⟨"agent", "Is that correct?"⟩,
       ⟨"user", "yes"⟩,
       ⟨"agent", "Are you on medication?"⟩,
       ⟨"user", "no"⟩] =
    [⟨1, "Do you have insurance?", "yes", "yes"⟩,
     ⟨2, "Are you on medication?", "no", "no"⟩] := by decide

/-! ### Sequence numbering of the three channels (C8) -/

theorem foldl_save_question (cid : Nat) (l : List (Nat × String)) (db : QuestionsTable) :
    l.foldl (fun d iq => save_question d cid iq.2 iq.1) db
      = db ++ l.map fun iq => ⟨cid, iq.1, iq.2, none, none, none⟩ := by
  induction l generalizing db with
  | nil => simp
  | cons x t ih =>
    rw [List.foldl_cons, ih]
    simp [save_question, List.append_assoc]

theorem ivr_save_questions_numbers (db : QuestionsTable) (cid : Nat) (qs : List String) :
    (ivr_save_questions db cid qs).map QuestionRow.question_number
      = db.map QuestionRow.question_number ++ List.range qs.length := by
  unfold ivr_save_questions
  rw [foldl_save_question]
  simp only [List.map_append, List.map_map]
  congr 1
  have : (QuestionRow.question_number ∘ fun iq : Nat × String =>
      (⟨cid, iq.1, iq.2, none, none, none⟩ : QuestionRow)) = Prod.fst := rfl
  rw [this, List.enum_map_fst]

theorem seg_step_out_invariant (st : SegState) (t : Turn)
    (h1 : ∀ qa ∈ st.out, 1 ≤ qa.question_number)
    (h2 : st.current.isSome → 1 ≤ st.qnum) :
    (∀ qa ∈ (seg_step st t).out, 1 ≤ qa.question_number) ∧
    ((seg_step st t).current.isSome → 1 ≤ (seg_step st t).qnum) := by
  simp only [seg_step]
  split
  · split
    · exact ⟨h1, fun _ => Nat.succ_le_succ (Nat.zero_le st.qnum)⟩
    · exact ⟨h1, h2⟩
  · split
    · split
      · rename_i cq hcur
        split
        · rename_i a ha
          refine ⟨?_, by simp⟩
          intro qa hqa
          simp only [List.mem_append, List.mem_singleton] at hqa
          rcases hqa with hqa | hqa
          · exact h1 qa hqa
          · subst hqa
            exact h2 (by simp [hcur])
        · exact ⟨h1, h2⟩
      · exact ⟨h1, h2⟩
    · exact ⟨h1, h2⟩

theorem seg_loop_ge_one (msgs : List Turn) :
    ∀ st : SegState, (∀ qa ∈ st.out, 1 ≤ qa.question_number) →
      (st.current.isSome → 1 ≤ st.qnum) →
      ∀ qa ∈ (msgs.foldl seg_step st).out, 1 ≤ qa.question_number := by
  induction msgs with
  | nil => intro st h1 _; simpa using h1
  | cons t ts ih =>
    intro st h1 h2
    have hstep := seg_step_out_invariant st t h1 h2
    exact ih (seg_step st t) hstep.1 hstep.2

/-- C8 counterexample: `VoiceBotHandler.start_session` stores the first
question of the session with `question_number = 1`, not `0`. -/
theorem sequence_numbering_cex :
    ((vb_start_session [] 7).1.map QuestionRow.question_number) = [1] ∧ (1 : Nat) ≠ 0 := by
  refine ⟨by decide, by decide⟩

/-- C8 amended: numbering differs per channel and only the IVR channel
matches the claim. The IVR channel is 0-based and contiguous (question `i`
of the list is stored with number `i`); the voice-bot session channel is
1-based and contiguous — the first question is stored with number 1 and
advancing from slot `k` stores number `k + 2`; the voice-agent transcript
channel counts candidate questions 1-based in occurrence order but stores
only the answered ones, so every stored number is at least 1 while numbers
can be skipped — when a first question goes unanswered before a second is
asked and answered, only number 2 is emitted (no entry numbered 1). -/
theorem sequence_numbering (db : QuestionsTable) (cid : Nat) (qs : List String)
    (s : VBSession) (hs : s.current_question + 1 < VOICE_BOT_QUESTIONS.length) :
    ((ivr_save_questions db cid qs).map QuestionRow.question_number
      = db.map QuestionRow.question_number ++ List.range qs.length) ∧
    ((vb_start_session db cid).1.map QuestionRow.question_number
      = db.map QuestionRow.question_number ++ [1]) ∧
    ((vb_advance db s).1.map QuestionRow.question_number
      = db.map QuestionRow.question_number ++ [s.current_question + 2]) ∧
    (∀ msgs : List Turn, ∀ qa ∈ segmentTranscript msgs, 1 ≤ qa.question_number) ∧
    (segmentTranscript
        [⟨"agent", "Is this question one?"⟩,
         ⟨"agent", "Is this question two?"⟩,
         ⟨"user", "yes"⟩]
      = [⟨2, "Is this question two?", "yes", "yes"⟩]) := by
  refine ⟨ivr_save_questions_numbers db cid qs, ?_, ?_, ?_, by decide⟩
  · simp [vb_start_session, save_question]
  · simp [vb_advance, hs, save_question]
  · intro msgs qa hqa
    exact seg_loop_ge_one msgs ⟨0, none, []⟩ (by simp) (by simp) qa hqa

/-- Witness for `sequence_numbering` at a concrete session state. -/
theorem sequence_numbering_witness :
    ((ivr_save_questions [] 3 ["A?", "B?"]).map QuestionRow.question_number = [0, 1]) ∧
    ((vb_advance [] ⟨7, 0⟩).1.map QuestionRow.question_number = [2]) := by
  have h := sequence_numbering [] 3 ["A?", "B?"] ⟨7, 0⟩ (by decide)
  exact ⟨h.1, h.2.2.1⟩

/-! ### Cache lemmas for identifier resolution (C3) -/

theorem find?_map_update (c : Cache) (k v : String) :
    List.find? (fun kv => kv.1 = k) (c.map fun kv => if kv.1 = k then (k, v) else kv)
      = (List.find? (fun kv => kv.1 = k) c).map fun _ => (k, v) := by
  induction c with
  | nil => rfl
  | cons x t ih =>
    by_cases hx : x.1 = k
    · simp only [List.map_cons, if_pos hx]
      rw [List.find?_cons_of_pos _ (by simp), List.find?_cons_of_pos _ (by simp [hx])]
      rfl
    · simp only [List.map_cons, if_neg hx]
      rw [List.find?_cons_of_neg _ (by simp [hx]), List.find?_cons_of_neg _ (by simp [hx])]
      exact ih

theorem cacheLookup_insert (c : Cache) (k v : String) :
    cacheLookup (cacheInsert c k v) k = some v := by
  unfold cacheLookup cacheInsert
  by_cases h : (List.find? (fun kv => kv.1 = k) c).isSome
  · rw [if_pos h, find?_map_update]
    rcases Option.isSome_iff_exists.mp h with ⟨kv, hkv⟩
    rw [hkv]
    rfl
  · rw [if_neg h, List.find?_append]
    rw [Option.not_isSome_iff_eq_none.mp h]
    simp [List.find?]

/-- C3: with a webhook carrying only a conversation reference (no call id, no
call sid), `handle_webhook` resolves it by trying, in order, the direct
`conv_..._call_id` cache key, a reverse scan of the stored forward
`..._conversation_id` mappings, and finally the durable-store lookup of the
reference; a successful reverse scan or durable lookup backfills the direct
key, so re-resolving against the updated cache hits the direct key
immediately. -/
theorem correlation_resolution (cache : Cache) (calls : List (String × Nat))
    (avail : Bool) (conv : String) :
    (∀ v, cacheLookup cache (convKey conv) = some v →
      resolveCallId cache calls avail (some conv) none none = ⟨some v, cache⟩) ∧
    (cacheLookup cache (convKey conv) = none →
      ∀ kv, cache.find? (fwdScanPred conv) = some kv →
        resolveCallId cache calls avail (some conv) none none
          = ⟨some (stripConvSuffix kv.1),
             cacheInsert cache (convKey conv) (stripConvSuffix kv.1)⟩ ∧
        resolveCallId (cacheInsert cache (convKey conv) (stripConvSuffix kv.1))
            calls avail (some conv) none none
          = ⟨some (stripConvSuffix kv.1),
             cacheInsert cache (convKey conv) (stripConvSuffix kv.1)⟩) ∧
    (cacheLookup cache (convKey conv) = none →
      cache.find? (fwdScanPred conv) = none → avail = true →
      ∀ i, get_call_id_by_sid calls conv = some i →
        resolveCallId cache calls avail (some conv) none none
          = ⟨some (toString i), cacheInsert cache (convKey conv) (toString i)⟩ ∧
        resolveCallId (cacheInsert cache (convKey conv) (toString i))
            calls avail (some conv) none none
          = ⟨some (toString i), cacheInsert cache (convKey conv) (toString i)⟩) := by
  refine ⟨?_, ?_, ?_⟩
  · intro v hdir
    simp [resolveCallId, resolveDirectOrScan, resolveBySid, resolveByConvSid, hdir]
  · intro hdir kv hscan
    constructor
    · simp [resolveCallId, resolveDirectOrScan, resolveBySid, resolveByConvSid, hdir, hscan]
    · simp [resolveCallId, resolveDirectOrScan, resolveBySid, resolveByConvSid,
        cacheLookup_insert]
  · intro hdir hscan havail i hdb
    subst havail
    constructor
    · simp [resolveCallId, resolveDirectOrScan, resolveBySid, resolveByConvSid,
        hdir, hscan, hdb]
    · simp [resolveCallId, resolveDirectOrScan, resolveBySid, resolveByConvSid,
        cacheLookup_insert]

/-- Witness for `correlation_resolution`: the reverse-scan clause on a cache
holding only the forward mapping recorded at call start (direct key evicted),
and the durable clause on an empty cache with the reference stored as the
call sid in the durable store. -/
theorem correlation_resolution_witness :
    resolveCallId [("42_conversation_id", "conv9"), ("42_call_sid", "CA1")] [] true
        (some "conv9") none none
      = ⟨some "42",
         [("42_conversation_id", "conv9"), ("42_call_sid", "CA1"),
          ("conv_conv9_call_id", "42")]⟩ ∧
    resolveCallId [] [("conv9", 42)] true (some "conv9") none none
      = ⟨some "42", [("conv_conv9_call_id", "42")]⟩ := by
  constructor
  · have h := (correlation_resolution
      [("42_conversation_id", "conv9"), ("42_call_sid", "CA1")] [] true "conv9").2.1
      (by decide) ("42_conversation_id", "conv9") (by decide)
    exact h.1
  · have h := (correlation_resolution [] [("conv9", 42)] true "conv9").2.2
      (by decide) (by decide) rfl 42 (by decide)
    exact h.1

/-- C5: for every inbound webhook whose body was extracted (the event was
accepted for processing), each of the four webhook routes answers HTTP 200
regardless of the outcome of processing — an internal error during
processing is caught (by the route's `except` for the TwiML routes, by the
inner `try` for the status write, and by `handle_webhook`'s own top-level
`try` for the voice-agent route) — and the voice-agent route reports
success/failure only through the `status` field of the JSON body. -/
theorem webhook_routes_return_200 (cid : Option String) (qn qn2 : Outcome Nat)
    (flow handler : Outcome String) (sid : Option String) (dbw : Outcome Unit)
    (bodyParse proc : Outcome Unit) (hbp : bodyParse = .ok ()) :
    (voice_flow_route cid qn flow).1 = 200 ∧
    (process_answer_route cid qn2 handler).1 = 200 ∧
    (call_status_route sid dbw).1 = 200 ∧
    (elevenlabs_webhook_route bodyParse proc).1 = 200 ∧
    ((elevenlabs_webhook_route bodyParse proc).2 = "error" ↔ ∃ m, proc = .err m) := by
  subst hbp
  refine ⟨?_, ?_, ?_, rfl, ?_⟩
  · unfold voice_flow_route
    rcases qn with _ | _
    · rcases cid with _ | c
      · rfl
      · dsimp only
        split
        · rfl
        · rcases flow with _ | _ <;> rfl
    · rfl
  · unfold process_answer_route
    rcases qn2 with _ | _
    · rcases cid with _ | c
      · rfl
      · dsimp only
        split
        · rfl
        · rcases handler with _ | _ <;> rfl
    · rfl
  · unfold call_status_route
    rcases sid with _ | s
    · rfl
    · rcases dbw with _ | _ <;> rfl
  · unfold elevenlabs_webhook_route el_handle_webhook
    rcases proc with _ | m <;> simp

/-- Witness for `webhook_routes_return_200` at a failing processing step. -/
theorem webhook_routes_return_200_witness :
    (voice_flow_route (some "42") (.ok 0) (.err "boom")).1 = 200 ∧
    (elevenlabs_webhook_route (.ok ()) (.err "boom")).2 = "error" := by
  have h := webhook_routes_return_200 (some "42") (.ok 0) (.ok 0) (.err "boom")
    (.ok "t") none (.err "db") (.ok ()) (.err "boom") rfl
  exact ⟨h.1, h.2.2.2.2.mpr ⟨"boom", rfl⟩⟩

/-- C9: `/api/initiate-call` rejects a missing/empty phone number, a phone
number without a leading `+`, or an empty question list with a 400
validation error before any call state exists (the returned state equals the
incoming one); on valid input the response is never a validation error, and
in particular the non-demo path with a working durable store creates the
call record and proceeds to dispatch. -/
theorem initiate_call_validation (st : AppDb) (phone : Option String)
    (qs : List String) (demo : Bool) (dbId : Option Nat) (rid : Nat) (disp : Bool)
    (hval : phone = none ∨ phone = some "" ∨
      (∃ p, phone = some p ∧ ¬ strStarts p "+") ∨ qs = []) :
    (∃ m, (initiate_call_route st phone qs demo dbId rid disp).1 = .badRequest m) ∧
    (initiate_call_route st phone qs demo dbId rid disp).2 = st ∧
    (∀ (p : String), p ≠ "" → strStarts p "+" = true → ∀ qs2 : List String, qs2 ≠ [] →
      ∀ i : Nat,
        (∀ m, (initiate_call_route st (some p) qs2 false (some i) rid disp).1
          ≠ .badRequest m) ∧
        (initiate_call_route st (some p) qs2 false (some i) rid disp).2.calls
          = st.calls ++ [(i, p)]) := by
  refine ⟨?_, ?_, ?_⟩
  · rcases hval with h | h | ⟨p, hp, hplus⟩ | h
    · subst h; exact ⟨"Phone number is required", rfl⟩
    · subst h; exact ⟨"Phone number is required", by simp [initiate_call_route]⟩
    · subst hp
      by_cases he : p = ""
      · subst he; exact ⟨"Phone number is required", by simp [initiate_call_route]⟩
      · by_cases hq : qs = []
        · exact ⟨"At least one question is required", by simp [initiate_call_route, he, hq]⟩
        · exact ⟨"Phone number must include country code",
            by simp [initiate_call_route, he, hq, hplus]⟩
    · subst h
      rcases phone with _ | p
      · exact ⟨"Phone number is required", rfl⟩
      · by_cases he : p = ""
        · subst he; exact ⟨"Phone number is required", by simp [initiate_call_route]⟩
        · exact ⟨"At least one question is required", by simp [initiate_call_route, he]⟩
  · rcases hval with h | h | ⟨p, hp, hplus⟩ | h
    · subst h; rfl
    · subst h; simp [initiate_call_route]
    · subst hp
      by_cases he : p = ""
      · subst he; simp [initiate_call_route]
      · by_cases hq : qs = []
        · simp [initiate_call_route, he, hq]
        · simp [initiate_call_route, he, hq, hplus]
    · subst h
      rcases phone with _ | p
      · rfl
      · by_cases he : p = ""
        · subst he; simp [initiate_call_route]
        · simp [initiate_call_route, he]
  · intro p he hplus qs2 hq i
    constructor
    · intro m
      simp [initiate_call_route, he, hq, hplus]
      split <;> simp
    · simp [initiate_call_route, he, hq, hplus]
      split <;> rfl

/-- Witness for `initiate_call_validation`: a phone number without `+` is
rejected with no state change, while a valid request creates the call. -/
theorem initiate_call_validation_witness :
    (∃ m, (initiate_call_route ⟨[], []⟩ (some "12345") ["Q?"] false none 7 true).1
      = .badRequest m) ∧
    (initiate_call_route ⟨[], []⟩ (some "12345") ["Q?"] false none 7 true).2 = ⟨[], []⟩ ∧
    (initiate_call_route ⟨[], []⟩ (some "+12345") ["Q?"] false (some 3) 7 true).2.calls
      = [(3, "+12345")] := by
  have h := initiate_call_validation ⟨[], []⟩ (some "12345") ["Q?"] false none 7 true
    (Or.inr (Or.inr (Or.inl ⟨"12345", rfl, by decide⟩)))
  exact ⟨h.1, h.2.1, (h.2.2 "+12345" (by decide) (by decide) ["Q?"] (by decide) 3).2⟩

end VoiceAgent
